import Mathlib

/-!
Verification of the RAG (retrieval-augmented generation) core of the
AI Agent System repository: the vector-search pipeline
(`match_documents` SQL function, `searchDocuments`, `addDocument`,
`bulkAddDocuments`, `createEmbedding` in `src/utils/`) and the agents
built on it (`ragAgent`, `hybridSearch` in `src/agents/ragAgent.ts`).

The TypeScript/SQL source is shallowly embedded: JSON metadata values
become an inductive `JVal`; JavaScript strict equality (`===`) and
truthy-or defaulting (`x || d`) are modelled explicitly; remote calls
(embedding provider, Postgres RPC, store inserts) are parametrised by
their outcomes.  Similarity scores are rationals.  Since every claim
holds the query fixed, a stored document carries its cosine distance
`embedding <=> query_embedding` to the ambient query directly.
-/

/-- JSON value, the type of metadata values (`jsonb` in the store and
`Record<string, any>` values in the client). -/
inductive JVal where
  | jnull : JVal
  | jbool : Bool → JVal
  | jnum : ℚ → JVal
  | jstr : String → JVal
  | jarr : List JVal → JVal
  | jobj : List (String × JVal) → JVal


/-- A metadata map: JS object / `jsonb` object, keys unique. -/
abbrev Metadata := List (String × JVal)

/-- JavaScript strict equality `===` between a metadata value obtained
from the RPC response and a caller-supplied filter value.  On primitive
values `===` is value equality; on objects and arrays it is reference
equality, and the RPC-parsed value and the literal supplied by the
caller are always distinct heap objects, so the comparison is `false`
for composites. -/
def jsStrictEq : JVal → JVal → Bool
  | JVal.jnull, JVal.jnull => true
  | JVal.jbool a, JVal.jbool b => a = b
  | JVal.jnum a, JVal.jnum b => a = b
  | JVal.jstr a, JVal.jstr b => a = b
  | _, _ => false

/-- JS object property read `obj[key]`: `none` models `undefined`. -/
def jsLookup (m : Metadata) (key : String) : Option JVal :=
  m.lookup key

/-- A row of the `documents` table, scored against the ambient query:
`distance` models `documents.embedding <=> query_embedding` (cosine
distance) for the fixed query embedding. -/
structure StoredDoc where
  id : ℕ
  content : String
  metadata : Option Metadata
  distance : ℚ


/-- Insert a document into a list kept ascending by `distance`
(models where a row lands under `ORDER BY embedding <=> query`). -/
def insertAsc (a : StoredDoc) : List StoredDoc → List StoredDoc
  | [] => [a]
  | b :: bs => if a.distance ≤ b.distance then a :: b :: bs else b :: insertAsc a bs

/-- Sort rows ascending by `distance`, i.e. the SQL
`ORDER BY documents.embedding <=> query_embedding`. -/
def sortAsc : List StoredDoc → List StoredDoc
  | [] => []
  | a :: l => insertAsc a (sortAsc l)

/-- A row returned by the `match_documents` RPC:
`(id, content, metadata, similarity)` with `similarity = 1 - distance`. -/
structure MatchRow where
  id : ℕ
  content : String
  metadata : Option Metadata
  similarity : ℚ


/-- Projection of a stored row to an RPC result row. -/
def StoredDoc.toRow (d : StoredDoc) : MatchRow :=
  { id := d.id, content := d.content, metadata := d.metadata
    similarity := 1 - d.distance }

/-- The `match_documents` SQL function:
`WHERE 1 - (embedding <=> q) > match_threshold`
`ORDER BY embedding <=> q  LIMIT match_count`. -/
def match_documents (docs : List StoredDoc) (match_threshold : ℚ)
    (match_count : ℕ) : List MatchRow :=
  ((sortAsc (docs.filter (fun d => match_threshold < 1 - d.distance))).take
    match_count).map StoredDoc.toRow

/-- Response of the embedding provider to one `openai.embeddings.create`
request: either the call throws (`err`), or it returns a response whose
`data` array holds the embedding vectors. -/
inductive EmbedResp where
  | ok : List (List ℚ) → EmbedResp
  | err : String → EmbedResp

/-- Model of `createEmbedding` (src/utils/openaiClient.ts): returns
`response.data[0].embedding` verbatim; any thrown error is re-thrown as
`Failed to create embedding: ...`.  An empty `data` array makes
`response.data[0].embedding` throw a TypeError inside the `try`, which
is likewise re-thrown. -/
def createEmbedding (resp : EmbedResp) : Except String (List ℚ) :=
  match resp with
  | EmbedResp.err m => Except.error ("Failed to create embedding: " ++ m)
  | EmbedResp.ok [] =>
      Except.error "Failed to create embedding: Cannot read properties of undefined"
  | EmbedResp.ok (e :: _) => Except.ok e

/-- Behaviour of the `supabase.rpc` round trip for `match_documents`:
it errors, returns `null` data, or returns the rows computed by the SQL
function `match_documents`. -/
inductive RpcOutcome where
  | ok : RpcOutcome
  | nullData : RpcOutcome
  | fail : String → RpcOutcome

/-- A search result as mapped by `searchDocuments` from an RPC row. -/
structure SearchResult where
  id : ℕ
  content : String
  similarity : ℚ
  metadata : Option Metadata

/-- The field-for-field copy `(data || []).map(item => ({...}))`. -/
def MatchRow.toSearchResult (r : MatchRow) : SearchResult :=
  { id := r.id, content := r.content, similarity := r.similarity
    metadata := r.metadata }

/-- Shape of the `searchDocuments` return value. -/
structure SearchResp where
  success : Bool
  data : Option (List SearchResult)
  error : Option String

/-- JS truthy-or `x || d` on an optional number: `undefined` and `0`
are falsy, so both fall back to the default. -/
def jsOrQ (x : Option ℚ) (d : ℚ) : ℚ :=
  match x with
  | none => d
  | some t => if t = 0 then d else t

/-- JS truthy-or `x || d` on an optional count. -/
def jsOrN (x : Option ℕ) (d : ℕ) : ℕ :=
  match x with
  | none => d
  | some n => if n = 0 then d else n

/-- Constant `SIMILARITY_THRESHOLD` in src/utils/vectorDB.ts. -/
def SIMILARITY_THRESHOLD : ℚ := 7/10

/-- Constant `MAX_RESULTS` in src/utils/vectorDB.ts. -/
def MAX_RESULTS : ℕ := 5

/-- Model of `searchDocuments` (src/utils/vectorDB.ts): embed the query, call
the `match_documents` RPC with `options?.threshold || 0.7` and
`options?.maxResults || 5`, map rows to `SearchResult`s; any thrown
error is caught into a `success: false` response. -/
def searchDocuments (provider : String → EmbedResp) (rpcB : RpcOutcome)
    (docs : List StoredDoc) (query : String)
    (threshold : Option ℚ) (maxResults : Option ℕ) : SearchResp :=
  match createEmbedding (provider query) with
  | Except.error m => { success := false, data := none, error := some m }
  | Except.ok _queryEmbedding =>
    match rpcB with
    | RpcOutcome.fail m => { success := false, data := none, error := some m }
    | RpcOutcome.nullData => { success := true, data := some [], error := none }
    | RpcOutcome.ok =>
        let rows := match_documents docs (jsOrQ threshold SIMILARITY_THRESHOLD)
          (jsOrN maxResults MAX_RESULTS)
        { success := true, data := some (rows.map MatchRow.toSearchResult)
          error := none }

/-- The record `addDocument`/`bulkAddDocuments` insert into the
`documents` table. -/
structure DocumentRecord where
  content : String
  embedding : List ℚ
  metadata : Metadata
  created_at : String

/-- Outcome of a store insert. -/
inductive StoreResp where
  | ok : StoreResp
  | fail : String → StoreResp

/-- Shape of the `addDocument` return value. -/
structure AddResp where
  success : Bool
  data : Option DocumentRecord
  error : Option String

/-- Model of `addDocument` (src/utils/vectorDB.ts).  The second component counts
the embedding-provider requests issued during the call: the very first
statement invokes `createEmbedding(content)` unconditionally, with no
validation of `content` before it. -/
def addDocument (provider : String → EmbedResp) (storeR : StoreResp)
    (now : String) (content : String) (metadata : Option Metadata) :
    AddResp × ℕ :=
  match createEmbedding (provider content) with
  | Except.error m => ({ success := false, data := none, error := some m }, 1)
  | Except.ok emb =>
    let document : DocumentRecord :=
      { content := content, embedding := emb, metadata := metadata.getD []
        created_at := now }
    match storeR with
    | StoreResp.fail m => ({ success := false, data := none, error := some m }, 1)
    | StoreResp.ok => ({ success := true, data := some document, error := none }, 1)

/-- First rejection among `tasks` in completion order (`order` lists
task indices in the order the promises settle). -/
def firstRejection {α : Type} (tasks : List (Except String α)) :
    List ℕ → Option String
  | [] => none
  | i :: rest =>
    match tasks.get? i with
    | some (Except.error m) => some m
    | _ => firstRejection tasks rest

/-- Positional collection of fulfilled values: `some` exactly when
every task fulfilled, in input position order. -/
def collectFulfilled {α : Type} : List (Except String α) → Option (List α)
  | [] => some []
  | Except.ok a :: ts => (collectFulfilled ts).map (fun l => a :: l)
  | Except.error _ :: _ => none

/-- JS `Promise.all`: fulfills with the results in input-position order
(independently of the completion schedule) exactly when every task
fulfills; otherwise rejects with the first rejection in completion
order.  The schedule `order` can only influence which rejection
message surfaces, never the fulfilled array. -/
def promiseAll {α : Type} (tasks : List (Except String α)) (order : List ℕ) :
    Except String (List α) :=
  match collectFulfilled tasks with
  | some vs => Except.ok vs
  | none => Except.error ((firstRejection tasks order).getD "rejected")

/-- Shape of the `bulkAddDocuments` return value. -/
structure BulkResp where
  success : Bool
  count : Option ℕ
  error : Option String

/-- The async arrow inside `documents.map(...)` in `bulkAddDocuments`:
embed one input pair into the record to insert. -/
def mkBulkRecord (provider : String → EmbedResp) (now : String)
    (doc : String × Option Metadata) : Except String DocumentRecord :=
  (createEmbedding (provider doc.1)).map (fun emb =>
    { content := doc.1, embedding := emb, metadata := doc.2.getD []
      created_at := now })

/-- Model of `bulkAddDocuments` (src/utils/vectorDB.ts): embed every input pair
via `Promise.all(documents.map(...))`, then issue one batched insert of
the collected records.  The second component records the insert calls
issued (each with its batch); any thrown error is caught into a
`success: false` response with no insert issued. -/
def bulkAddDocuments (provider : String → EmbedResp) (order : List ℕ)
    (storeR : StoreResp) (now : String)
    (documents : List (String × Option Metadata)) :
    BulkResp × List (List DocumentRecord) :=
  match promiseAll (documents.map (mkBulkRecord provider now)) order with
  | Except.error m => ({ success := false, count := none, error := some m }, [])
  | Except.ok documentsWithEmbeddings =>
    match storeR with
    | StoreResp.fail m =>
        ({ success := false, count := none, error := some m },
         [documentsWithEmbeddings])
    | StoreResp.ok =>
        ({ success := true, count := some documentsWithEmbeddings.length
           error := none },
         [documentsWithEmbeddings])

/-- Outcome of one `openai.chat.completions.create` request as seen by
`createChatCompletion`: provider content (possibly `null`) or a thrown
error captured into `success: false`. -/
inductive ChatOutcome where
  | ok : Option String → ChatOutcome
  | fail : String → ChatOutcome

/-- JS truthy-or `x || d` on an optional string: `undefined`, `null`
and `""` are falsy. -/
def jsOrStr (x : Option String) (d : String) : String :=
  match x with
  | none => d
  | some s => if s = "" then d else s

/-- Model of `aiAgentWithSystemPrompt` (src/agents/aiAgent.ts): one
`createChatCompletion` call; on `success: false` throw the error, else
return `response.data` with the no-response fallback applied by `||`. -/
def aiAgentWithSystemPrompt (chat : ChatOutcome) : Except String String :=
  match chat with
  | ChatOutcome.ok c => Except.ok (jsOrStr c "No response generated")
  | ChatOutcome.fail m => Except.error (jsOrStr (some m) "Failed to get response")

/-- JS `Array.prototype.join(sep)`. -/
def joinSep (sep : String) : List String → String
  | [] => ""
  | [x] => x
  | x :: y :: xs => x ++ sep ++ joinSep sep (y :: xs)

/-- One numbered context block built by `ragAgent`:
the template literal `[Document N]\ncontent` with `N = idx + 1`. -/
def docBlock (idx : ℕ) (content : String) : String :=
  "[Document " ++ Nat.repr (idx + 1) ++ "]\n" ++ content

/-- The context block of `ragAgent`:
the blocks built by `results.map` joined on a blank line. -/
def ragContext (results : List SearchResult) : String :=
  joinSep "\n\n" (results.enum.map (fun p => docBlock p.1 p.2.content))

/-- The system-prompt template of `ragAgent`, with the context block
spliced in. -/
def ragSystemPrompt (results : List SearchResult) : String :=
  "You are a helpful assistant with access to a knowledge base. Answer the user\x27s question based on the following relevant documents. If the documents don\x27t contain enough information, say so clearly.\n\nRelevant Documents:\n"
    ++ ragContext results
    ++ "\n\nInstructions:\n- Base your answer primarily on the provided documents\n- If the documents don\x27t fully answer the question, acknowledge the limitations\n- Cite which document(s) you\x27re referencing when appropriate\n- Be concise but thorough"

/-- The fixed no-relevant-information reply of `ragAgent`. -/
def noInfoMsg : String :=
  "I couldn\x27t find any relevant information in the knowledge base. Please try rephrasing your question or add more context."

/-- Model of `ragAgent` (src/agents/ragAgent.ts): search with threshold 0.7 and
maxResults 3; throw on search failure; return the fixed reply on zero
results; else build the system prompt and make one generation call.
`gen` gives the provider outcome for a (system, user) pair; the second
component is the trace of generation calls issued. -/
def ragAgent (provider : String → EmbedResp) (rpcB : RpcOutcome)
    (docs : List StoredDoc) (gen : String → String → ChatOutcome)
    (query : String) : Except String String × List (String × String) :=
  let searchResults := searchDocuments provider rpcB docs query
    (some (7/10)) (some 3)
  match searchResults.success, searchResults.data with
  | true, some results =>
    if results.length = 0 then
      (Except.ok noInfoMsg, [])
    else
      let systemPrompt := ragSystemPrompt results
      match aiAgentWithSystemPrompt (gen systemPrompt query) with
      | Except.ok response => (Except.ok response, [(systemPrompt, query)])
      | Except.error e => (Except.error e, [(systemPrompt, query)])
  | _, _ =>
      (Except.error (searchResults.error.getD "Failed to retrieve relevant documents"),
       [])

/-- The metadata post-filter predicate of `hybridSearch`:
`doc.metadata` must be truthy and every `(key, value)` of `filters`
must satisfy `doc.metadata[key] === value`. -/
def hybridPred (filters : Metadata) (doc : SearchResult) : Bool :=
  match doc.metadata with
  | none => false
  | some md =>
    filters.all (fun kv =>
      match jsLookup md kv.1 with
      | none => false
      | some v => jsStrictEq v kv.2)

/-- Model of `hybridSearch` (src/agents/ragAgent.ts): search with threshold 0.6
and maxResults 10; on failure or missing data return `[]`; if a filter
map is supplied, keep only results passing `hybridPred`. -/
def hybridSearch (provider : String → EmbedResp) (rpcB : RpcOutcome)
    (docs : List StoredDoc) (query : String) (filters : Option Metadata) :
    List SearchResult :=
  let searchResults := searchDocuments provider rpcB docs query
    (some (6/10)) (some 10)
  match searchResults.success, searchResults.data with
  | true, some results =>
    match filters with
    | none => results
    | some f => results.filter (hybridPred f)
  | _, _ => []

theorem mem_insertAsc (x a : StoredDoc) (l : List StoredDoc) :
    x ∈ insertAsc a l ↔ x = a ∨ x ∈ l := by
  induction l with
  | nil => simp [insertAsc]
  | cons b bs ih =>
    simp only [insertAsc]
    split
    · simp [List.mem_cons]
    · simp [List.mem_cons, ih]
      tauto

theorem mem_sortAsc (x : StoredDoc) (l : List StoredDoc) :
    x ∈ sortAsc l ↔ x ∈ l := by
  induction l with
  | nil => simp [sortAsc]
  | cons a l ih => simp [sortAsc, mem_insertAsc, ih, List.mem_cons]

theorem pairwise_insertAsc (a : StoredDoc) (l : List StoredDoc)
    (h : l.Pairwise (fun u v => u.distance ≤ v.distance)) :
    (insertAsc a l).Pairwise (fun u v => u.distance ≤ v.distance) := by
  induction l with
  | nil => simp [insertAsc]
  | cons b bs ih =>
    rcases List.pairwise_cons.mp h with ⟨hb, hbs⟩
    simp only [insertAsc]
    split
    · rename_i hab
      refine List.pairwise_cons.mpr ⟨?_, h⟩
      intro x hx
      rcases List.mem_cons.mp hx with rfl | hx
      · exact hab
      · exact le_trans hab (hb x hx)
    · rename_i hab
      refine List.pairwise_cons.mpr ⟨?_, ih hbs⟩
      intro x hx
      rcases (mem_insertAsc x a bs).mp hx with rfl | hx
      · exact le_of_not_le hab
      · exact hb x hx

theorem pairwise_sortAsc (l : List StoredDoc) :
    (sortAsc l).Pairwise (fun u v => u.distance ≤ v.distance) := by
  induction l with
  | nil => simp [sortAsc]
  | cons a l ih => exact pairwise_insertAsc a (sortAsc l) ih

theorem insertAsc_append_of_le (a : StoredDoc) (A B : List StoredDoc)
    (hB : ∀ b ∈ B, a.distance ≤ b.distance) :
    insertAsc a (A ++ B) = insertAsc a A ++ B := by
  induction A with
  | nil =>
    cases B with
    | nil => simp [insertAsc]
    | cons b bs => simp [insertAsc, hB b (List.mem_cons_self b bs)]
  | cons x xs ih =>
    by_cases h : a.distance ≤ x.distance
    · simp [insertAsc, h]
    · simp [insertAsc, h, ih]

theorem insertAsc_append_of_gt (a : StoredDoc) (B : List StoredDoc) :
    ∀ A : List StoredDoc, (∀ x ∈ A, ¬ a.distance ≤ x.distance) →
      insertAsc a (A ++ B) = A ++ insertAsc a B := by
  intro A
  induction A with
  | nil => intro _; simp
  | cons x xs ih =>
    intro hA
    have hx := hA x (List.mem_cons_self x xs)
    simp only [List.cons_append, insertAsc, if_neg hx, List.append_eq]
    rw [ih (fun y hy => hA y (List.mem_cons_of_mem x hy))]

theorem sortAsc_split (c : ℚ) (l : List StoredDoc) :
    sortAsc l
      = sortAsc (l.filter (fun d => decide (d.distance < c)))
        ++ sortAsc (l.filter (fun d => !decide (d.distance < c))) := by
  induction l with
  | nil => simp [sortAsc]
  | cons a l ih =>
    by_cases h : a.distance < c
    · rw [sortAsc, ih,
        insertAsc_append_of_le a (sortAsc (l.filter (fun d => decide (d.distance < c))))]
      · simp [List.filter_cons, h, sortAsc]
      · intro b hb
        have hb' := (mem_sortAsc b _).mp hb
        have hq := (List.mem_filter.mp hb').2
        simp only [Bool.not_eq_true', decide_eq_false_iff_not, not_lt] at hq
        exact le_trans (le_of_lt h) hq
    · rw [sortAsc, ih,
        insertAsc_append_of_gt a (sortAsc (l.filter (fun d => !decide (d.distance < c))))]
      · simp [List.filter_cons, h, sortAsc]
      · intro x hx
        have hx' := (mem_sortAsc x _).mp hx
        have hq := (List.mem_filter.mp hx').2
        simp only [decide_eq_true_eq] at hq
        exact fun hle => h (lt_of_le_of_lt hle hq)

theorem mem_match_documents (docs : List StoredDoc) (t : ℚ) (k : ℕ)
    (r : MatchRow) (h : r ∈ match_documents docs t k) :
    ∃ d ∈ docs, t < 1 - d.distance ∧ r = d.toRow := by
  unfold match_documents at h
  rcases List.mem_map.mp h with ⟨d, hd, rfl⟩
  have hd' := (mem_sortAsc d _).mp (List.mem_of_mem_take hd)
  have hm := List.mem_filter.mp hd'
  exact ⟨d, hm.1, by simpa using hm.2, rfl⟩

theorem match_documents_length_le (docs : List StoredDoc) (t : ℚ) (k : ℕ) :
    (match_documents docs t k).length ≤ k := by
  simp only [match_documents, List.length_map, List.length_take]
  exact min_le_left _ _

theorem match_documents_sorted (docs : List StoredDoc) (t : ℚ) (k : ℕ) :
    (match_documents docs t k).Pairwise
      (fun a b => b.similarity ≤ a.similarity) := by
  unfold match_documents
  refine List.pairwise_map.mpr ?_
  have hs := pairwise_sortAsc (docs.filter (fun d => decide (t < 1 - d.distance)))
  have ht := List.Pairwise.sublist (List.take_sublist k _) hs
  exact ht.imp (fun h => by simp only [StoredDoc.toRow]; linarith)

theorem match_documents_anti (docs : List StoredDoc) (t t' : ℚ) (k : ℕ)
    (hle : t ≤ t') (r : MatchRow) (h : r ∈ match_documents docs t' k) :
    r ∈ match_documents docs t k := by
  unfold match_documents at h ⊢
  rcases List.mem_map.mp h with ⟨d, hd, rfl⟩
  refine List.mem_map.mpr ⟨d, ?_, rfl⟩
  have key : sortAsc (docs.filter (fun d => decide (t < 1 - d.distance)))
      = sortAsc (docs.filter (fun d => decide (t' < 1 - d.distance)))
        ++ sortAsc ((docs.filter (fun d => decide (t < 1 - d.distance))).filter
            (fun d => !decide (d.distance < 1 - t'))) := by
    rw [sortAsc_split (1 - t') (docs.filter (fun d => decide (t < 1 - d.distance)))]
    congr 1
    rw [List.filter_filter]
    congr 1
    apply List.filter_congr
    intro d _
    by_cases hc : t' < 1 - d.distance
    · have h1 : d.distance < 1 - t' := by linarith
      have h2 : t < 1 - d.distance := by linarith
      simp [hc, h1, h2]
    · have h1 : ¬ d.distance < 1 - t' := fun hx => hc (by linarith)
      simp [hc, h1]
  rw [key, List.take_append_eq_append_take]
  exact List.mem_append_left _ hd

theorem searchDocuments_cases (p : String → EmbedResp) (rpcB : RpcOutcome)
    (docs : List StoredDoc) (q : String) (th : Option ℚ) (mr : Option ℕ) :
    (searchDocuments p rpcB docs q th mr).data = none
    ∨ (searchDocuments p rpcB docs q th mr).data = some []
    ∨ (searchDocuments p rpcB docs q th mr).data
        = some ((match_documents docs (jsOrQ th SIMILARITY_THRESHOLD)
            (jsOrN mr MAX_RESULTS)).map MatchRow.toSearchResult) := by
  unfold searchDocuments
  cases hE : createEmbedding (p q) with
  | error m => simp
  | ok v =>
    cases rpcB with
    | fail m => simp
    | nullData => simp
    | ok => simp

theorem searchDocuments_success_of_data (p : String → EmbedResp)
    (rpcB : RpcOutcome) (docs : List StoredDoc) (q : String)
    (th : Option ℚ) (mr : Option ℕ) (l : List SearchResult)
    (h : (searchDocuments p rpcB docs q th mr).data = some l) :
    (searchDocuments p rpcB docs q th mr).success = true := by
  unfold searchDocuments at h ⊢
  cases hE : createEmbedding (p q) with
  | error m => rw [hE] at h; simp at h
  | ok v => rw [hE] at h; cases rpcB <;> simp_all

/-- A provider stub whose embedding calls always succeed. -/
def okProvider : String → EmbedResp := fun _ => EmbedResp.ok [[0]]

/-- Stored fixture: similarity 9/10 to the ambient query. -/
def docA : StoredDoc :=
  { id := 1, content := "alpha", metadata := some [], distance := 1/10 }

/-- Stored fixture: similarity 3/5 to the ambient query. -/
def docB : StoredDoc :=
  { id := 2, content := "beta", metadata := some [], distance := 2/5 }

/-- Fixture `docA` as a search result. -/
def resA : SearchResult :=
  { id := 1, content := "alpha", similarity := 9/10, metadata := some [] }

/-- Fixture `docB` as a search result. -/
def resB : SearchResult :=
  { id := 2, content := "beta", similarity := 3/5, metadata := some [] }

theorem searchDocuments_joint (p : String → EmbedResp) (rpcB : RpcOutcome)
    (docs : List StoredDoc) (q : String) (mr : Option ℕ) (tA tB : Option ℚ) :
    ((searchDocuments p rpcB docs q tA mr).data.getD [] = []
      ∧ (searchDocuments p rpcB docs q tB mr).data.getD [] = [])
    ∨ ((searchDocuments p rpcB docs q tA mr).data.getD []
          = (match_documents docs (jsOrQ tA SIMILARITY_THRESHOLD)
              (jsOrN mr MAX_RESULTS)).map MatchRow.toSearchResult
        ∧ (searchDocuments p rpcB docs q tB mr).data.getD []
          = (match_documents docs (jsOrQ tB SIMILARITY_THRESHOLD)
              (jsOrN mr MAX_RESULTS)).map MatchRow.toSearchResult) := by
  unfold searchDocuments
  cases createEmbedding (p q) with
  | error m => left; constructor <;> rfl
  | ok v =>
    cases rpcB with
    | fail m => left; constructor <;> rfl
    | nullData => left; constructor <;> rfl
    | ok => right; constructor <;> rfl

theorem eval_search_half :
    (searchDocuments okProvider RpcOutcome.ok [docA, docB] "q"
      (some (1/2)) (some 5)).data = some [resA, resB] := by
  norm_num [searchDocuments, createEmbedding, okProvider, jsOrQ, jsOrN,
    SIMILARITY_THRESHOLD, MAX_RESULTS, match_documents, sortAsc, insertAsc,
    List.filter_cons, docA, docB, StoredDoc.toRow, MatchRow.toSearchResult,
    resA, resB]

theorem eval_search_half_cap0 :
    (searchDocuments okProvider RpcOutcome.ok [docA, docB] "q"
      (some (1/2)) (some 0)).data = some [resA, resB] := by
  norm_num [searchDocuments, createEmbedding, okProvider, jsOrQ, jsOrN,
    SIMILARITY_THRESHOLD, MAX_RESULTS, match_documents, sortAsc, insertAsc,
    List.filter_cons, docA, docB, StoredDoc.toRow, MatchRow.toSearchResult,
    resA, resB]

theorem eval_search_zero :
    (searchDocuments okProvider RpcOutcome.ok [docA, docB] "q"
      (some 0) (some 5)).data = some [resA] := by
  norm_num [searchDocuments, createEmbedding, okProvider, jsOrQ, jsOrN,
    SIMILARITY_THRESHOLD, MAX_RESULTS, match_documents, sortAsc, insertAsc,
    List.filter_cons, docA, docB, StoredDoc.toRow, MatchRow.toSearchResult,
    resA]

theorem eval_search_seven :
    (searchDocuments okProvider RpcOutcome.ok [docA, docB] "q"
      (some (7/10)) (some 5)).data = some [resA] := by
  norm_num [searchDocuments, createEmbedding, okProvider, jsOrQ, jsOrN,
    SIMILARITY_THRESHOLD, MAX_RESULTS, match_documents, sortAsc, insertAsc,
    List.filter_cons, docA, docB, StoredDoc.toRow, MatchRow.toSearchResult,
    resA]

theorem jsStrictEq_eq (a b : JVal) (h : jsStrictEq a b = true) : a = b := by
  cases a <;> cases b <;> simp_all [jsStrictEq]

theorem jsStrictEq_jarr (xs : List JVal) (b : JVal) :
    jsStrictEq (JVal.jarr xs) b = false := by
  cases b <;> rfl

theorem jsStrictEq_jobj (fs : List (String × JVal)) (b : JVal) :
    jsStrictEq (JVal.jobj fs) b = false := by
  cases b <;> rfl

theorem hybridSearch_eq (p : String → EmbedResp) (rpcB : RpcOutcome)
    (docs : List StoredDoc) (q : String) (filters : Option Metadata) :
    (hybridSearch p rpcB docs q filters = []
       ∧ (searchDocuments p rpcB docs q (some (6/10)) (some 10)).data = none)
    ∨ ∃ results,
        (searchDocuments p rpcB docs q (some (6/10)) (some 10)).data
            = some results
        ∧ hybridSearch p rpcB docs q filters
            = (match filters with
               | none => results
               | some f => results.filter (hybridPred f)) := by
  unfold hybridSearch searchDocuments
  cases createEmbedding (p q) with
  | error m => left; exact ⟨rfl, rfl⟩
  | ok v =>
    cases rpcB with
    | fail m => left; exact ⟨rfl, rfl⟩
    | nullData => right; exact ⟨[], rfl, rfl⟩
    | ok => right; exact ⟨_, rfl, rfl⟩

/-- C9: passing `threshold: 0` (resp. `maxResults: 0`) to
`searchDocuments` is indistinguishable from passing the module default
`SIMILARITY_THRESHOLD = 0.7` (resp. `MAX_RESULTS = 5`), because the
defaulting `options?.threshold || 0.7` / `options?.maxResults || 5`
uses JavaScript truthiness and `0` is falsy; a caller therefore cannot
actually request threshold 0. -/
theorem searchDocuments_zero_options_use_defaults
    (p : String → EmbedResp) (rpcB : RpcOutcome) (docs : List StoredDoc)
    (q : String) (th : Option ℚ) (mr : Option ℕ) :
    searchDocuments p rpcB docs q (some 0) mr
        = searchDocuments p rpcB docs q (some SIMILARITY_THRESHOLD) mr
    ∧ searchDocuments p rpcB docs q th (some 0)
        = searchDocuments p rpcB docs q th (some MAX_RESULTS) := by
  constructor <;>
    · unfold searchDocuments
      norm_num [jsOrQ, jsOrN, SIMILARITY_THRESHOLD, MAX_RESULTS]

/-- C2 counterexample: calling `searchDocuments` with `maxResults: 0`
on a two-document store returns two results, so the returned list does
not contain at most `maxResults` items (the `0` is coerced to the
default cap 5 by `||`). -/
theorem searchDocuments_maxResults_zero_cex :
    ¬ (((searchDocuments okProvider RpcOutcome.ok [docA, docB] "q"
          (some (1/2)) (some 0)).data.getD []).length ≤ 0) := by
  rw [eval_search_half_cap0]
  simp

/-- C2 (amended): for every query, threshold and every
`maxResults ≥ 1`, a successful `searchDocuments` returns at most
`maxResults` items, every returned item has similarity strictly
greater than the requested threshold, and items are ordered by
similarity descending.  (For `maxResults = 0` the cap fails, since
`0` is falsy and replaced by the default 5 — see the counterexample.) -/
theorem searchDocuments_cap_filter_sorted
    (p : String → EmbedResp) (rpcB : RpcOutcome) (docs : List StoredDoc)
    (q : String) (t : ℚ) (k : ℕ) (hk : 1 ≤ k) (res : List SearchResult)
    (h : (searchDocuments p rpcB docs q (some t) (some k)).data = some res) :
    res.length ≤ k
    ∧ (∀ x ∈ res, t < x.similarity)
    ∧ res.Pairwise (fun a b => b.similarity ≤ a.similarity) := by
  rcases searchDocuments_cases p rpcB docs q (some t) (some k) with hc | hc | hc
  · rw [h] at hc; cases hc
  · rw [h] at hc
    obtain rfl : res = [] := Option.some.inj hc
    simp
  · rw [h] at hc
    obtain rfl := Option.some.inj hc
    have hk0 : jsOrN (some k) MAX_RESULTS = k := by
      have : k ≠ 0 := by omega
      simp [jsOrN, this]
    have het : t ≤ jsOrQ (some t) SIMILARITY_THRESHOLD := by
      by_cases ht : t = 0
      · subst ht; norm_num [jsOrQ, SIMILARITY_THRESHOLD]
      · simp [jsOrQ, ht]
    refine ⟨?_, ?_, ?_⟩
    · rw [List.length_map]
      calc (match_documents docs (jsOrQ (some t) SIMILARITY_THRESHOLD)
              (jsOrN (some k) MAX_RESULTS)).length
          ≤ jsOrN (some k) MAX_RESULTS := match_documents_length_le _ _ _
        _ = k := hk0
    · intro x hx
      rcases List.mem_map.mp hx with ⟨r, hr, rfl⟩
      rcases mem_match_documents _ _ _ r hr with ⟨d, _, hdt, rfl⟩
      have : jsOrQ (some t) SIMILARITY_THRESHOLD < 1 - d.distance := hdt
      simp only [StoredDoc.toRow, MatchRow.toSearchResult]
      linarith
    · refine List.pairwise_map.mpr ?_
      exact (match_documents_sorted docs _ _).imp
        (fun hab => by simpa [MatchRow.toSearchResult] using hab)

/-- C2 witness: a successful concrete search with threshold 1/2 and
maxResults 5 over a two-document store satisfies the cap, the strict
threshold filter and the descending order. -/
theorem searchDocuments_cap_filter_sorted_witness :
    ([resA, resB].length ≤ 5
     ∧ (∀ x ∈ [resA, resB], (1/2 : ℚ) < x.similarity)
     ∧ [resA, resB].Pairwise (fun a b => b.similarity ≤ a.similarity)) :=
  searchDocuments_cap_filter_sorted okProvider RpcOutcome.ok [docA, docB]
    "q" (1/2) 5 (by norm_num) [resA, resB] eval_search_half

/-- C3 counterexample: with `threshold1 = 0 < 1/2 = threshold2` the
result set of the higher-threshold search is not contained in that of
the lower-threshold search: requesting threshold 0 is coerced to the
default 0.7, which filters out the similarity-3/5 document that the
threshold-1/2 search returns. -/
theorem searchDocuments_monotone_cex :
    ¬ (∀ x ∈ ((searchDocuments okProvider RpcOutcome.ok [docA, docB] "q"
          (some (1/2)) (some 5)).data.getD []),
        x ∈ ((searchDocuments okProvider RpcOutcome.ok [docA, docB] "q"
          (some 0) (some 5)).data.getD [])) := by
  intro hall
  have hb : resB ∈ ((searchDocuments okProvider RpcOutcome.ok [docA, docB] "q"
      (some (1/2)) (some 5)).data.getD []) := by
    rw [eval_search_half]
    simp
  have hmem := hall resB hb
  rw [eval_search_zero] at hmem
  simp [resA, resB] at hmem

/-- C3 (amended): for every query, every pair of thresholds with
`threshold1 < threshold2` and `threshold1 ≠ 0`, and fixed store and
maxResults, the result set of the higher-threshold search is a subset
of the lower-threshold one.  (`threshold1 = 0` is excluded: `0` is
falsy and coerced to the default 0.7 — see the counterexample.) -/
theorem searchDocuments_threshold_monotone
    (p : String → EmbedResp) (rpcB : RpcOutcome) (docs : List StoredDoc)
    (q : String) (t1 t2 : ℚ) (mr : Option ℕ)
    (h1 : t1 ≠ 0) (hlt : t1 < t2) :
    ∀ x ∈ ((searchDocuments p rpcB docs q (some t2) mr).data.getD []),
      x ∈ ((searchDocuments p rpcB docs q (some t1) mr).data.getD []) := by
  intro x hx
  have e1 : jsOrQ (some t1) SIMILARITY_THRESHOLD = t1 := by simp [jsOrQ, h1]
  have hle : jsOrQ (some t1) SIMILARITY_THRESHOLD
      ≤ jsOrQ (some t2) SIMILARITY_THRESHOLD := by
    by_cases h2 : t2 = 0
    · subst h2
      have ht1 : t1 < 0 := hlt
      have e2 : jsOrQ (some (0 : ℚ)) SIMILARITY_THRESHOLD
          = SIMILARITY_THRESHOLD := by simp [jsOrQ]
      rw [e1, e2]
      unfold SIMILARITY_THRESHOLD
      linarith
    · have e2 : jsOrQ (some t2) SIMILARITY_THRESHOLD = t2 := by
        simp [jsOrQ, h2]
      rw [e1, e2]
      exact le_of_lt hlt
  rcases searchDocuments_joint p rpcB docs q mr (some t2) (some t1)
    with ⟨hA, _⟩ | ⟨hA, hB⟩
  · rw [hA] at hx
    simp at hx
  · rw [hA] at hx
    rw [hB]
    rcases List.mem_map.mp hx with ⟨r, hr, rfl⟩
    exact List.mem_map.mpr
      ⟨r, match_documents_anti docs _ _ _ hle r hr, rfl⟩

/-- C3 witness: with thresholds 1/2 < 7/10, the single result of the
7/10 search is also returned by the 1/2 search. -/
theorem searchDocuments_threshold_monotone_witness :
    ((1 : ℚ)/2 ≠ 0 ∧ (1 : ℚ)/2 < 7/10)
    ∧ resA ∈ ((searchDocuments okProvider RpcOutcome.ok [docA, docB] "q"
        (some (1/2)) (some 5)).data.getD []) :=
  ⟨⟨by norm_num, by norm_num⟩,
    searchDocuments_threshold_monotone okProvider RpcOutcome.ok [docA, docB]
      "q" (1/2) (7/10) (some 5) (by norm_num) (by norm_num) resA
      (by rw [eval_search_seven]; simp)⟩

/-- A provider stub whose embedding calls always throw. -/
def errProvider : String → EmbedResp := fun _ => EmbedResp.err "boom"

/-- Stored fixture with an (empty-)array metadata value. -/
def docM : StoredDoc :=
  { id := 5, content := "gamma", metadata := some [("k", JVal.jarr [])]
    distance := 1/10 }

/-- Fixture `docM` as a search result. -/
def resM : SearchResult :=
  { id := 5, content := "gamma", similarity := 9/10
    metadata := some [("k", JVal.jarr [])] }

/-- Stored fixture with a primitive (string) metadata value. -/
def docP : StoredDoc :=
  { id := 7, content := "delta", metadata := some [("k", JVal.jstr "v")]
    distance := 1/5 }

/-- Fixture `docP` as a search result. -/
def resP : SearchResult :=
  { id := 7, content := "delta", similarity := 4/5
    metadata := some [("k", JVal.jstr "v")] }

theorem eval_hybrid_prim :
    hybridSearch okProvider RpcOutcome.ok [docP] "q"
      (some [("k", JVal.jstr "v")]) = [resP] := by
  norm_num [hybridSearch, searchDocuments, createEmbedding, okProvider,
    jsOrQ, jsOrN, SIMILARITY_THRESHOLD, MAX_RESULTS, match_documents,
    sortAsc, insertAsc, List.filter_cons, docP, StoredDoc.toRow,
    MatchRow.toSearchResult, hybridPred, jsLookup, jsStrictEq, resP]

/-- C5 counterexample: with a store whose single matching document has
metadata `{"k": []}` and the filter map `{"k": []}`, the unfiltered
0.6/10 search returns the document and the filter value is (deeply)
equal to the metadata value of the document, yet `hybridSearch` returns the
empty list: the post-filter compares with JS strict equality `===`,
which is reference equality on arrays/objects, not deep value
equality. -/
theorem hybridSearch_deep_equality_cex :
    hybridSearch okProvider RpcOutcome.ok [docM] "q"
        (some [("k", JVal.jarr [])]) = []
    ∧ (searchDocuments okProvider RpcOutcome.ok [docM] "q"
        (some (6/10)) (some 10)).data = some [resM]
    ∧ resM.metadata = some [("k", JVal.jarr [])] := by
  refine ⟨?_, ?_, rfl⟩
  · norm_num [hybridSearch, searchDocuments, createEmbedding, okProvider,
      jsOrQ, jsOrN, SIMILARITY_THRESHOLD, MAX_RESULTS, match_documents,
      sortAsc, insertAsc, List.filter_cons, docM, StoredDoc.toRow,
      MatchRow.toSearchResult, hybridPred, jsLookup, jsStrictEq]
  · norm_num [searchDocuments, createEmbedding, okProvider, jsOrQ, jsOrN,
      SIMILARITY_THRESHOLD, MAX_RESULTS, match_documents, sortAsc,
      insertAsc, List.filter_cons, docM, StoredDoc.toRow,
      MatchRow.toSearchResult, resM]

/-- C5 (amended): every `hybridSearch` result set is a subset of the
unfiltered search with threshold 0.6 and maxResults 10, and every
metadata of every returned item contains (with equal value) every key/value
pair of the filter map.  However, the key/value comparison is JS strict
equality `===`, not deep value equality: strict equality implies value
equality, and it is identically false whenever the metadata value is an
array or object, so composite filter values never match. -/
theorem hybridSearch_subset_and_filter (p : String → EmbedResp)
    (rpcB : RpcOutcome) (docs : List StoredDoc) (q : String) :
    (∀ filters : Option Metadata, ∀ x ∈ hybridSearch p rpcB docs q filters,
        x ∈ (searchDocuments p rpcB docs q (some (6/10)) (some 10)).data.getD [])
    ∧ (∀ f : Metadata, ∀ x ∈ hybridSearch p rpcB docs q (some f),
        ∃ md, x.metadata = some md ∧ ∀ kv ∈ f, jsLookup md kv.1 = some kv.2)
    ∧ (∀ a b : JVal, jsStrictEq a b = true → a = b)
    ∧ (∀ xs b, jsStrictEq (JVal.jarr xs) b = false)
    ∧ (∀ fs b, jsStrictEq (JVal.jobj fs) b = false) := by
  refine ⟨?_, ?_, jsStrictEq_eq, jsStrictEq_jarr, jsStrictEq_jobj⟩
  · intro filters x hx
    rcases hybridSearch_eq p rpcB docs q filters with ⟨he, _⟩ | ⟨results, hd, he⟩
    · rw [he] at hx; cases hx
    · rw [he] at hx
      rw [hd]
      cases filters with
      | none => simpa using hx
      | some f => simpa using List.mem_of_mem_filter hx
  · intro f x hx
    rcases hybridSearch_eq p rpcB docs q (some f) with ⟨he, _⟩ | ⟨results, hd, he⟩
    · rw [he] at hx; cases hx
    · rw [he] at hx
      have hpred := (List.mem_filter.mp hx).2
      unfold hybridPred at hpred
      cases hm : x.metadata with
      | none => rw [hm] at hpred; cases hpred
      | some md =>
        rw [hm] at hpred
        refine ⟨md, rfl, ?_⟩
        intro kv hkv
        have hall := (List.all_eq_true.mp hpred) kv hkv
        cases hl : jsLookup md kv.1 with
        | none => rw [hl] at hall; cases hall
        | some v =>
          rw [hl] at hall
          rw [jsStrictEq_eq v kv.2 hall]

/-- C5 witness: with a primitive string filter value, the single
`hybridSearch` result is also in the unfiltered 0.6/10 search result
set. -/
theorem hybridSearch_subset_and_filter_witness :
    resP ∈ ((searchDocuments okProvider RpcOutcome.ok [docP] "q"
        (some (6/10)) (some 10)).data.getD []) :=
  (hybridSearch_subset_and_filter okProvider RpcOutcome.ok [docP] "q").1
    (some [("k", JVal.jstr "v")]) resP (by rw [eval_hybrid_prim]; simp)

/-- C10: `hybridSearch` never surfaces a failure: whenever the
underlying `searchDocuments` call reports `success: false` or carries
no data, `hybridSearch` returns the empty list (its return type carries
no error channel at all, and the modelled `searchDocuments` never
throws, mirroring the TS function that catches internally). -/
theorem hybridSearch_never_fails (p : String → EmbedResp)
    (rpcB : RpcOutcome) (docs : List StoredDoc) (q : String)
    (filters : Option Metadata)
    (h : (searchDocuments p rpcB docs q (some (6/10)) (some 10)).success = false
         ∨ (searchDocuments p rpcB docs q (some (6/10)) (some 10)).data = none) :
    hybridSearch p rpcB docs q filters = [] := by
  rcases hybridSearch_eq p rpcB docs q filters with ⟨he, _⟩ | ⟨results, hd, he⟩
  · exact he
  · exfalso
    rcases h with h | h
    · have := searchDocuments_success_of_data p rpcB docs q
        (some (6/10)) (some 10) results hd
      rw [h] at this
      cases this
    · rw [hd] at h
      cases h

/-- C10 witness: with an embedding provider that throws, `hybridSearch`
returns the empty list. -/
theorem hybridSearch_never_fails_witness :
    hybridSearch errProvider RpcOutcome.ok [docA] "q" none = [] :=
  hybridSearch_never_fails errProvider RpcOutcome.ok [docA] "q" none
    (Or.inl (by norm_num [searchDocuments, createEmbedding, errProvider]))

/-- C4 counterexample: calling `addDocument` with empty content issues
one embedding-provider request (not zero) and, when the provider and
store succeed, the operation succeeds: there is no InvalidInput-style
rejection of blank content before the network call. -/
theorem addDocument_empty_content_cex :
    (addDocument okProvider StoreResp.ok "t0" "" none).2 = 1
    ∧ (addDocument okProvider StoreResp.ok "t0" "" none).1.success = true := by
  constructor <;> rfl

/-- C4 (amended): `addDocument` performs no input validation at all —
for every content (empty included) it issues exactly one embedding
request as its first step, and a failure surfaces only as the
`success: false` result produced from the embedding (or store) error
after that call was attempted. -/
theorem addDocument_no_input_validation (provider : String → EmbedResp)
    (storeR : StoreResp) (now content : String) (metadata : Option Metadata) :
    (addDocument provider storeR now content metadata).2 = 1
    ∧ (∀ m, createEmbedding (provider content) = Except.error m →
        (addDocument provider storeR now content metadata).1
          = { success := false, data := none, error := some m }) := by
  constructor
  · unfold addDocument
    cases createEmbedding (provider content) with
    | error m => rfl
    | ok v => cases storeR <;> rfl
  · intro m hm
    unfold addDocument
    rw [hm]

/-- C4 witness: with a throwing provider and empty content, the
embedding error is what surfaces (after the one request). -/
theorem addDocument_no_input_validation_witness :
    (addDocument errProvider StoreResp.ok "t0" "" none).1
      = { success := false, data := none
          error := some "Failed to create embedding: boom" } :=
  (addDocument_no_input_validation errProvider StoreResp.ok "t0" "" none).2
    "Failed to create embedding: boom" rfl

/-- C7 counterexample: on a provider response whose first embedding is
the 1-element vector `[0]`, `createEmbedding` returns that vector
untouched instead of failing: there is no dimensionality check, so a
vector whose length is not 1536 is not rejected. -/
theorem createEmbedding_no_dimension_check_cex :
    createEmbedding (EmbedResp.ok [[0]]) = Except.ok [0]
    ∧ [(0 : ℚ)].length ≠ 1536 := by
  exact ⟨rfl, by norm_num⟩

/-- C7 (amended): `createEmbedding` propagates every thrown provider
error (prefixed `Failed to create embedding:`) and errors when the
response carries no embedding at all; on any non-empty `data` it
returns the first embedding verbatim — never a fallback vector, never
truncated or padded — but it performs no dimensionality validation. -/
theorem createEmbedding_error_propagation (resp : EmbedResp) :
    (∀ m, resp = EmbedResp.err m →
        createEmbedding resp
          = Except.error ("Failed to create embedding: " ++ m))
    ∧ (∀ e rest, resp = EmbedResp.ok (e :: rest) →
        createEmbedding resp = Except.ok e)
    ∧ (resp = EmbedResp.ok [] → ∃ m, createEmbedding resp = Except.error m) :=
  ⟨fun m hm => by rw [hm]; rfl,
   fun e rest h => by rw [h]; rfl,
   fun h => ⟨_, by rw [h]; rfl⟩⟩

/-- C7 witness: a thrown provider error propagates with the prefix. -/
theorem createEmbedding_error_propagation_witness :
    createEmbedding (EmbedResp.err "x")
      = Except.error ("Failed to create embedding: " ++ "x") :=
  (createEmbedding_error_propagation (EmbedResp.err "x")).1 "x" rfl

theorem collectFulfilled_map_ok (provider : String → EmbedResp) (now : String) :
    ∀ documents : List (String × Option Metadata),
      (∀ d ∈ documents, ∃ emb,
          createEmbedding (provider d.1) = Except.ok emb) →
      ∃ records,
        collectFulfilled (documents.map (mkBulkRecord provider now))
            = some records
        ∧ records.length = documents.length
        ∧ ∀ i, i < documents.length → ∃ d emb,
            documents.get? i = some d
            ∧ createEmbedding (provider d.1) = Except.ok emb
            ∧ records.get? i = some
                { content := d.1, embedding := emb
                  metadata := d.2.getD [], created_at := now } := by
  intro documents
  induction documents with
  | nil => intro _; exact ⟨[], rfl, rfl, fun i hi => absurd hi (by simp)⟩
  | cons d ds ih =>
    intro hok
    obtain ⟨emb, hE⟩ := hok d (List.mem_cons_self d ds)
    obtain ⟨records, hcf, hlen, hpos⟩ :=
      ih (fun x hx => hok x (List.mem_cons_of_mem d hx))
    refine ⟨{ content := d.1, embedding := emb
              metadata := d.2.getD [], created_at := now } :: records,
      ?_, by simp [hlen], ?_⟩
    · simp only [List.map_cons, collectFulfilled, mkBulkRecord, hE,
        Except.map, hcf]
      rfl
    · intro i hi
      cases i with
      | zero => exact ⟨d, emb, rfl, hE, rfl⟩
      | succ j =>
        obtain ⟨d', emb', h1, h2, h3⟩ := hpos j (by simpa using hi)
        exact ⟨d', emb', h1, h2, h3⟩

/-- C6: when every embedding succeeds, `bulkAddDocuments` issues
exactly one batched insert whose records correspond positionally to
the input pairs (record i is built from input pair i), and the insert
batch does not depend on the order in which the embedding promises
settle (`Promise.all` collects fulfilled values positionally; the
completion schedule can only influence which rejection message
surfaces on failure). -/
theorem bulkAddDocuments_positional (provider : String → EmbedResp)
    (order order2 : List ℕ) (storeR : StoreResp) (now : String)
    (documents : List (String × Option Metadata))
    (hok : ∀ d ∈ documents, ∃ emb,
        createEmbedding (provider d.1) = Except.ok emb) :
    ∃ records,
      (bulkAddDocuments provider order storeR now documents).2 = [records]
      ∧ records.length = documents.length
      ∧ (∀ i, i < documents.length → ∃ d emb,
            documents.get? i = some d
            ∧ createEmbedding (provider d.1) = Except.ok emb
            ∧ records.get? i = some
                { content := d.1, embedding := emb
                  metadata := d.2.getD [], created_at := now })
      ∧ (bulkAddDocuments provider order2 storeR now documents).2
          = (bulkAddDocuments provider order storeR now documents).2 := by
  obtain ⟨records, hcf, hlen, hpos⟩ :=
    collectFulfilled_map_ok provider now documents hok
  refine ⟨records, ?_, hlen, hpos, ?_⟩
  · unfold bulkAddDocuments promiseAll
    rw [hcf]
    cases storeR <;> rfl
  · unfold bulkAddDocuments promiseAll
    rw [hcf]

/-- C6 witness: bulk-ingesting `[("a", {}), ("b", {})]` with two
different completion schedules yields one insert whose records match
the input order. -/
theorem bulkAddDocuments_positional_witness :
    ∃ records,
      (bulkAddDocuments okProvider [1, 0] StoreResp.ok "t0"
          [("a", none), ("b", none)]).2 = [records]
      ∧ records.length = ([("a", none), ("b", none)] :
            List (String × Option Metadata)).length
      ∧ (∀ i, i < ([("a", none), ("b", none)] :
            List (String × Option Metadata)).length → ∃ d emb,
            ([("a", none), ("b", none)] :
                List (String × Option Metadata)).get? i = some d
            ∧ createEmbedding (okProvider d.1) = Except.ok emb
            ∧ records.get? i = some
                { content := d.1, embedding := emb
                  metadata := d.2.getD [], created_at := "t0" })
      ∧ (bulkAddDocuments okProvider [0, 1] StoreResp.ok "t0"
            [("a", none), ("b", none)]).2
          = (bulkAddDocuments okProvider [1, 0] StoreResp.ok "t0"
              [("a", none), ("b", none)]).2 :=
  bulkAddDocuments_positional okProvider [1, 0] [0, 1] StoreResp.ok "t0"
    [("a", none), ("b", none)] (fun _ _ => ⟨[0], rfl⟩)

/-- Predicate: `pat` occurs contiguously inside `s`. -/
def SubstringOf (pat s : String) : Prop :=
  ∃ l r : List Char, s.data = l ++ pat.data ++ r

theorem substringOf_refl (s : String) : SubstringOf s s :=
  ⟨[], [], by simp⟩

theorem substringOf_append_right (pat s b : String)
    (h : SubstringOf pat s) : SubstringOf pat (s ++ b) := by
  obtain ⟨l, r, hlr⟩ := h
  exact ⟨l, r ++ b.data, by simp [hlr]⟩

theorem substringOf_append_left (pat s a : String)
    (h : SubstringOf pat s) : SubstringOf pat (a ++ s) := by
  obtain ⟨l, r, hlr⟩ := h
  exact ⟨a.data ++ l, r, by simp [hlr]⟩

theorem substringOf_joinSep (sep : String) :
    ∀ (blocks : List String) (i : ℕ) (b : String),
      blocks.get? i = some b → SubstringOf b (joinSep sep blocks) := by
  intro blocks
  induction blocks with
  | nil => intro i b h; cases h
  | cons x xs ih =>
    intro i b h
    cases i with
    | zero =>
      have hxb : x = b := Option.some.inj h
      subst hxb
      cases xs with
      | nil => exact substringOf_refl x
      | cons y ys =>
        show SubstringOf x (x ++ sep ++ joinSep sep (y :: ys))
        exact substringOf_append_right _ _ _
          (substringOf_append_right _ _ _ (substringOf_refl x))
    | succ j =>
      have hj : xs.get? j = some b := h
      cases xs with
      | nil => cases hj
      | cons y ys =>
        show SubstringOf b (x ++ sep ++ joinSep sep (y :: ys))
        have := ih j b hj
        exact substringOf_append_left _ _ _ this

theorem ragAgent_eq (p : String → EmbedResp) (rpcB : RpcOutcome)
    (docs : List StoredDoc) (gen : String → String → ChatOutcome)
    (query : String) :
    (∃ m, ragAgent p rpcB docs gen query = (Except.error m, [])
        ∧ (searchDocuments p rpcB docs query (some (7/10)) (some 3)).data
            = none)
    ∨ ∃ results,
        (searchDocuments p rpcB docs query (some (7/10)) (some 3)).data
            = some results
        ∧ ragAgent p rpcB docs gen query
            = if results.length = 0 then (Except.ok noInfoMsg, [])
              else
                match aiAgentWithSystemPrompt
                    (gen (ragSystemPrompt results) query) with
                | Except.ok r =>
                    (Except.ok r, [(ragSystemPrompt results, query)])
                | Except.error e =>
                    (Except.error e, [(ragSystemPrompt results, query)]) := by
  unfold ragAgent searchDocuments
  cases createEmbedding (p query) with
  | error m => left; exact ⟨_, rfl, rfl⟩
  | ok v =>
    cases rpcB with
    | fail m => left; exact ⟨_, rfl, rfl⟩
    | nullData => right; exact ⟨[], rfl, rfl⟩
    | ok => right; exact ⟨_, rfl, rfl⟩

/-- C1: whenever the similarity search succeeds with zero results,
`ragAgent` returns the fixed no-relevant-information string and issues
no Generation Client call (the generation-call trace is empty). -/
theorem ragAgent_zero_results (p : String → EmbedResp) (rpcB : RpcOutcome)
    (docs : List StoredDoc) (gen : String → String → ChatOutcome)
    (query : String)
    (h : (searchDocuments p rpcB docs query (some (7/10)) (some 3)).data
        = some []) :
    ragAgent p rpcB docs gen query = (Except.ok noInfoMsg, []) := by
  rcases ragAgent_eq p rpcB docs gen query with ⟨m, _, hd⟩ | ⟨results, hd, hr⟩
  · rw [h] at hd
    cases hd
  · rw [h] at hd
    obtain rfl : [] = results := Option.some.inj hd
    rw [hr]
    simp

theorem eval_search_rag_empty :
    (searchDocuments okProvider RpcOutcome.ok [] "q"
      (some (7/10)) (some 3)).data = some [] := by
  norm_num [searchDocuments, createEmbedding, okProvider, jsOrQ, jsOrN,
    SIMILARITY_THRESHOLD, MAX_RESULTS, match_documents, sortAsc]

/-- C1 witness: on an empty knowledge base the search returns zero
results and `ragAgent` answers with the fixed string, zero generation
calls issued. -/
theorem ragAgent_zero_results_witness :
    ragAgent okProvider RpcOutcome.ok []
        (fun _ _ => ChatOutcome.ok (some "ans")) "q"
      = (Except.ok noInfoMsg, []) :=
  ragAgent_zero_results okProvider RpcOutcome.ok []
    (fun _ _ => ChatOutcome.ok (some "ans")) "q" eval_search_rag_empty

/-- C8: whenever the similarity search succeeds with n >= 1 results,
`ragAgent` issues exactly one Generation Client call whose system
instruction is `ragSystemPrompt results`, and that instruction contains
the content of every matched result under its numbered `[Document N]`
heading, `N = i + 1` for the result at position `i` of the returned
order (which is the descending-similarity order of the search). -/
theorem ragAgent_one_generation_call (p : String → EmbedResp)
    (rpcB : RpcOutcome) (docs : List StoredDoc)
    (gen : String → String → ChatOutcome) (query : String)
    (results : List SearchResult)
    (hd : (searchDocuments p rpcB docs query (some (7/10)) (some 3)).data
        = some results)
    (hne : results ≠ []) :
    (ragAgent p rpcB docs gen query).2 = [(ragSystemPrompt results, query)]
    ∧ ∀ i x, results.get? i = some x →
        SubstringOf (docBlock i x.content) (ragSystemPrompt results) := by
  constructor
  · rcases ragAgent_eq p rpcB docs gen query
      with ⟨m, _, hd'⟩ | ⟨results', hd', hr⟩
    · rw [hd] at hd'
      cases hd'
    · rw [hd] at hd'
      obtain rfl : results = results' := Option.some.inj hd'
      rw [hr, if_neg (by simpa using hne)]
      cases aiAgentWithSystemPrompt (gen (ragSystemPrompt results) query) <;>
        rfl
  · intro i x hget
    have hblock : (results.enum.map
        (fun pr => docBlock pr.1 pr.2.content)).get? i
          = some (docBlock i x.content) := by
      rw [List.get?_map, List.get?_enum, hget]
      rfl
    have hctx : SubstringOf (docBlock i x.content) (ragContext results) :=
      substringOf_joinSep "\n\n" _ i _ hblock
    unfold ragSystemPrompt
    exact substringOf_append_right _ _ _
      (substringOf_append_left _ _ _ hctx)

theorem eval_search_rag_one :
    (searchDocuments okProvider RpcOutcome.ok [docA] "q"
      (some (7/10)) (some 3)).data = some [resA] := by
  norm_num [searchDocuments, createEmbedding, okProvider, jsOrQ, jsOrN,
    SIMILARITY_THRESHOLD, MAX_RESULTS, match_documents, sortAsc, insertAsc,
    List.filter_cons, docA, StoredDoc.toRow, MatchRow.toSearchResult, resA]

/-- C8 witness: with one matching document the trace has exactly one
generation call and its system instruction contains the numbered block
of that document. -/
theorem ragAgent_one_generation_call_witness :
    (ragAgent okProvider RpcOutcome.ok [docA]
        (fun _ _ => ChatOutcome.ok (some "ans")) "q").2
      = [(ragSystemPrompt [resA], "q")]
    ∧ ∀ i x, ([resA] : List SearchResult).get? i = some x →
        SubstringOf (docBlock i x.content) (ragSystemPrompt [resA]) :=
  ragAgent_one_generation_call okProvider RpcOutcome.ok [docA]
    (fun _ _ => ChatOutcome.ok (some "ans")) "q" [resA]
    eval_search_rag_one (by simp)
